import Mathlib

/-!
Shallow embedding of `t9_result` (src/include/t9_result/result.h), a C++
`Result<T,E>` discriminated union, together with theorems settling the
spec claims about it.

Modelling conventions:
* `std::variant<std::monostate, Ok<T>, Err<E>>` becomes the inductive
  `Variant T E`; a `Result` is a structure holding one `Variant` field
  `m_value`, mirroring the class layout.
* C++ move semantics: moving a payload of type `T` out of a live object
  leaves the source holding `MoveSem.moved v` (for trivially copyable
  types such as `int` this is the value itself; for the test suite's
  `NoncopyableObject` it is the swapped-in default, id 0).
* Control flow that can end in `assert`-failure (program abort) or, in
  the variant's unreachable `monostate` state, in `std::get` raising, is
  modelled with the `Outcome` type.  The constructor `Outcome.thrown`
  stands for a catchable C++ exception escaping the call; it exists so
  that "no operation throws" is a statable property of the model (the
  library is compiled with `-fno-exceptions`, and `assert` aborts).
* Consuming combinators (`map`, `map_err`, `and_then`) start with
  `Result self = std::move(*this);` — a `std::variant` move that keeps
  the source on the same alternative with a moved-from payload.  Their
  model therefore returns, besides the produced `Result`, the state the
  source object is left in, the number of invocations of the callback,
  and the number of copy-constructions of a payload the combinator
  itself performs (an lvalue handed to `Ok(const T&)` / `Err(const E&)`
  is a copy; everything reached through `std::move` or a prvalue is a
  move).
-/

namespace T9Result

/-- Outcome of a C++ call in the model: a normal return, an `assert`
failure / `std::get` abort (the library is built with `-fno-exceptions`,
so `bad_variant_access` terminates), or a catchable exception escaping
the call (never produced by this library; present so that absence of
exceptions is statable). -/
inductive Outcome (A : Type) where
  | ret (a : A)
  | abort
  | thrown
  deriving DecidableEq

/-- Translation of `t9_result::Ok<T>` (result.h): wrapper tagging a
success payload. -/
structure Ok (T : Type) where
  m_value : T
  deriving DecidableEq

/-- Translation of `t9_result::Err<E>` (result.h): wrapper tagging a
failure payload. -/
structure Err (E : Type) where
  m_value : E
  deriving DecidableEq

/-- Translation of `std::variant<std::monostate, Ok<T>, Err<E>>`, the
storage of `Result` (result.h, member `m_value`). -/
inductive Variant (T E : Type) where
  | monostate
  | ok (o : Ok T)
  | err (e : Err E)
  deriving DecidableEq

/-- Translation of `t9_result::Result<T,E>` (result.h): the class holds
exactly the variant field `m_value`. -/
structure Result (T E : Type) where
  m_value : Variant T E
  deriving DecidableEq

/-- Move behaviour of a payload type: `moved v` is the value the source
object holds after `v` has been move-constructed out of it. -/
class MoveSem (T : Type) where
  moved : T → T

instance : MoveSem Int := ⟨fun v => v⟩

instance : MoveSem Nat := ⟨fun v => v⟩

instance : MoveSem Unit := ⟨fun v => v⟩

/-- Translation of the test suite's `NoncopyableObject`
(src/tests/result_test.cpp): move-only, carries an `int` id. -/
structure NCObj where
  id : Nat
  deriving DecidableEq

/-- `NoncopyableObject`'s move constructor member-initializes `m_id = 0`
then swaps with the source, so a moved-from object holds id 0. -/
instance : MoveSem NCObj := ⟨fun _ => ⟨0⟩⟩

variable {T E U F S : Type}

/-- Translation of `make_ok` (result.h): wraps a value as `Ok<T>`. -/
def make_ok (value : T) : Ok T := ⟨value⟩

/-- Translation of `make_err` (result.h): wraps a value as `Err<E>`. -/
def make_err (value : E) : Err E := ⟨value⟩

/-- Translation of `make_ok_with<T>(args...)` (result.h): constructs the
payload in place; in the model it receives the constructed value. -/
def make_ok_with (value : T) : Ok T := ⟨value⟩

/-- Translation of `make_err_with<E>(args...)` (result.h). -/
def make_err_with (value : E) : Err E := ⟨value⟩

/-- Translation of the constructor `Result(Ok<T> ok)` (result.h). -/
def Result.ofOk (o : Ok T) : Result T E := ⟨Variant.ok o⟩

/-- Translation of the constructor `Result(Err<E> err)` (result.h). -/
def Result.ofErr (e : Err E) : Result T E := ⟨Variant.err e⟩

/-- Translation of `Result::is_ok`:
`std::holds_alternative<Ok<T>>(m_value)`. -/
def Result.is_ok : Result T E → Bool
  | ⟨Variant.ok _⟩ => true
  | _ => false

/-- Translation of `Result::is_err`:
`std::holds_alternative<Err<E>>(m_value)`. -/
def Result.is_err : Result T E → Bool
  | ⟨Variant.err _⟩ => true
  | _ => false

/-- Translation of `Result::unwrap` (result.h): `assert(is_ok())` then
`return std::move(std::get<Ok<T>>(m_value).m_value);`.  Returns the
outcome together with the state the source is left in (the payload is
moved out; a failed assertion aborts). -/
def Result.unwrap [MoveSem T] : Result T E → Outcome T × Result T E
  | ⟨Variant.ok o⟩ => (Outcome.ret o.m_value, ⟨Variant.ok ⟨MoveSem.moved o.m_value⟩⟩)
  | r => (Outcome.abort, r)

/-- Translation of `Result::unwrap_err` (result.h), symmetric to
`unwrap` on the failure alternative. -/
def Result.unwrap_err [MoveSem E] : Result T E → Outcome E × Result T E
  | ⟨Variant.err e⟩ => (Outcome.ret e.m_value, ⟨Variant.err ⟨MoveSem.moved e.m_value⟩⟩)
  | r => (Outcome.abort, r)

/-- Translation of `Result::unwrap_or` (result.h):
`if (is_ok()) return unwrap(); return std::forward<T>(default_value);`. -/
def Result.unwrap_or [MoveSem T] (r : Result T E) (d : T) : Outcome T :=
  if r.is_ok then (r.unwrap).1 else Outcome.ret d

/-- Translation of `Result::ref_ok` (result.h): `assert(is_ok())` then a
reference to the payload; the model returns the referenced value. -/
def Result.ref_ok : Result T E → Outcome T
  | ⟨Variant.ok o⟩ => Outcome.ret o.m_value
  | _ => Outcome.abort

/-- Translation of `Result::ref_err` (result.h). -/
def Result.ref_err : Result T E → Outcome E
  | ⟨Variant.err e⟩ => Outcome.ret e.m_value
  | _ => Outcome.abort

/-- Translation of `Result::inspect_ok` (result.h): if `is_ok()`, calls
`f` on a reference to the payload, then returns `*this`.  The callback
is modelled as a state transformer `T → S → S`; the model returns the
(unchanged) Result, the state after the callback's side effects, and the
number of invocations of `f`. -/
def Result.inspect_ok (f : T → S → S) (r : Result T E) (s : S) : Result T E × S × Nat :=
  match r with
  | ⟨Variant.ok o⟩ => (r, f o.m_value s, 1)
  | _ => (r, s, 0)

/-- Translation of `Result::inspect_err` (result.h). -/
def Result.inspect_err (f : E → S → S) (r : Result T E) (s : S) : Result T E × S × Nat :=
  match r with
  | ⟨Variant.err e⟩ => (r, f e.m_value s, 1)
  | _ => (r, s, 0)

/-- Bundled observable effects of a consuming combinator: the produced
`Result`, the state the moved-from source (`*this`) is left in, the
number of invocations of the callback, and the number of
copy-constructions of a stored payload the combinator itself performs. -/
structure CombOut (A B : Type) where
  result : A
  source : B
  calls : Nat
  copies : Nat
  deriving DecidableEq

/-- Translation of `Result::map` (result.h):
`Result self = std::move(*this);` (variant move: the source keeps its
alternative with a moved-from payload), then on the ok alternative
`return make_ok(f(std::get<Ok<T>>(self.m_value).m_value));` (the payload
reaches `f` as an lvalue reference and `f`'s prvalue result is moved:
0 copies, 1 call), otherwise
`return Err<E>(std::get<Err<E>>(self.m_value).m_value);` — an lvalue, so
`Err(const E&)` copy-constructs the failure payload (1 copy, 0 calls).
On the `monostate` alternative `std::get<Err<E>>` aborts. -/
def Result.map [MoveSem T] [MoveSem E] (f : T → U) :
    Result T E → Outcome (CombOut (Result U E) (Result T E))
  | ⟨Variant.ok o⟩ =>
      Outcome.ret ⟨Result.ofOk ⟨f o.m_value⟩, ⟨Variant.ok ⟨MoveSem.moved o.m_value⟩⟩, 1, 0⟩
  | ⟨Variant.err e⟩ =>
      Outcome.ret ⟨Result.ofErr ⟨e.m_value⟩, ⟨Variant.err ⟨MoveSem.moved e.m_value⟩⟩, 0, 1⟩
  | ⟨Variant.monostate⟩ => Outcome.abort

/-- Translation of `Result::map_err` (result.h): mirror of `map`; on the
ok alternative `return Ok<T>(std::get<Ok<T>>(self.m_value).m_value);`
copy-constructs the success payload from an lvalue (1 copy, 0 calls). -/
def Result.map_err [MoveSem T] [MoveSem E] (f : E → F) :
    Result T E → Outcome (CombOut (Result T F) (Result T E))
  | ⟨Variant.err e⟩ =>
      Outcome.ret ⟨Result.ofErr ⟨f e.m_value⟩, ⟨Variant.err ⟨MoveSem.moved e.m_value⟩⟩, 1, 0⟩
  | ⟨Variant.ok o⟩ =>
      Outcome.ret ⟨Result.ofOk ⟨o.m_value⟩, ⟨Variant.ok ⟨MoveSem.moved o.m_value⟩⟩, 0, 1⟩
  | ⟨Variant.monostate⟩ => Outcome.abort

/-- Translation of `Result::and_then` (result.h): on the ok alternative
`return f(std::get<Ok<T>>(self.m_value).m_value);` — `f`'s Result is
returned directly, with no re-wrapping (1 call, 0 copies); otherwise
`return Err<E>(std::get<Err<E>>(self.m_value).m_value);` copy-constructs
the failure payload (0 calls, 1 copy). -/
def Result.and_then [MoveSem T] [MoveSem E] (f : T → Result U E) :
    Result T E → Outcome (CombOut (Result U E) (Result T E))
  | ⟨Variant.ok o⟩ =>
      Outcome.ret ⟨f o.m_value, ⟨Variant.ok ⟨MoveSem.moved o.m_value⟩⟩, 1, 0⟩
  | ⟨Variant.err e⟩ =>
      Outcome.ret ⟨Result.ofErr ⟨e.m_value⟩, ⟨Variant.err ⟨MoveSem.moved e.m_value⟩⟩, 0, 1⟩
  | ⟨Variant.monostate⟩ => Outcome.abort

/-- Modelled from the spec: the void-payload specialization's `Ok`
factory `make_ok()` (the `Result<void,E>` specialization is absent from
src/, only its tests are present): it takes no argument and success
carries no data. -/
def make_ok_void : Ok Unit := ⟨()⟩

/-- Modelled from the spec: `unwrap()` of the void-payload
specialization (absent from src/): performs only the success assertion
and returns nothing; on a failure Result the assertion aborts. -/
def Result.unwrap_void : Result Unit E → Outcome Unit
  | ⟨Variant.ok _⟩ => Outcome.ret ()
  | _ => Outcome.abort

/-- Modelled from the spec: `map` of the void-payload specialization
(absent from src/): the callback takes no argument and its return value
becomes the new success payload; on failure the payload is carried
through unchanged and the callback is not invoked.  Returns the produced
Result and the number of invocations of the callback. -/
def Result.map_void (f : Unit → U) : Result Unit E → Outcome (Result U E × Nat)
  | ⟨Variant.ok _⟩ => Outcome.ret (Result.ofOk ⟨f ()⟩, 1)
  | ⟨Variant.err e⟩ => Outcome.ret (Result.ofErr ⟨e.m_value⟩, 0)
  | ⟨Variant.monostate⟩ => Outcome.abort

/-- A `Result` constructed through the public API: the four factories
and the two converting constructors all produce a Result via
`Result(Ok<T>)` or `Result(Err<E>)`. -/
inductive Constructed : Result T E → Prop where
  | fromOk (o : Ok T) : Constructed (Result.ofOk o)
  | fromErr (e : Err E) : Constructed (Result.ofErr e)


/-- Claim C1: `map` preserves the branch and transforms only the
matching payload.  On success payload `v`, `r.map f` yields a success
Result whose payload is `f v` and invokes `f` exactly once; on failure
payload `e` it yields a failure Result carrying `e` unchanged and
invokes `f` zero times.  `map_err` is the mirror: on failure it yields a
failure Result with payload `g e`, on success a success Result with the
original payload and `g` invoked zero times. -/
theorem map_preserves_branch {T E U F : Type} [MoveSem T] [MoveSem E]
    (f : T → U) (g : E → F) (v : T) (e : E) :
    Result.map f (Result.ofOk (make_ok v) : Result T E) =
      Outcome.ret ⟨Result.ofOk ⟨f v⟩, Result.ofOk ⟨MoveSem.moved v⟩, 1, 0⟩ ∧
    Result.map f (Result.ofErr (make_err e) : Result T E) =
      Outcome.ret ⟨Result.ofErr ⟨e⟩, Result.ofErr ⟨MoveSem.moved e⟩, 0, 1⟩ ∧
    Result.map_err g (Result.ofErr (make_err e) : Result T E) =
      Outcome.ret ⟨Result.ofErr ⟨g e⟩, Result.ofErr ⟨MoveSem.moved e⟩, 1, 0⟩ ∧
    Result.map_err g (Result.ofOk (make_ok v) : Result T E) =
      Outcome.ret ⟨Result.ofOk ⟨v⟩, Result.ofOk ⟨MoveSem.moved v⟩, 0, 1⟩ :=
  ⟨rfl, rfl, rfl, rfl⟩

/-- Claim C2: `and_then` is the monadic bind.  On success payload `v`,
`r.and_then f` returns exactly the Result produced by `f v` (no
re-wrapping) with `f` invoked once; on failure payload `e`, `f` is
invoked zero times and the returned failure Result carries the original
payload `e`. -/
theorem and_then_bind {T E U : Type} [MoveSem T] [MoveSem E]
    (f : T → Result U E) (v : T) (e : E) :
    Result.and_then f (Result.ofOk (make_ok v) : Result T E) =
      Outcome.ret ⟨f v, Result.ofOk ⟨MoveSem.moved v⟩, 1, 0⟩ ∧
    Result.and_then f (Result.ofErr (make_err e) : Result T E) =
      Outcome.ret ⟨Result.ofErr ⟨e⟩, Result.ofErr ⟨MoveSem.moved e⟩, 0, 1⟩ :=
  ⟨rfl, rfl⟩

/-- Claim C3: construction/extraction round-trip.  `make_ok v` yields a
Result with `is_ok` true whose `unwrap` returns `v`; `make_err e` yields
a Result with `is_err` true whose `unwrap_err` returns `e`. -/
theorem make_roundtrip {T E : Type} [MoveSem T] [MoveSem E] (v : T) (e : E) :
    (Result.ofOk (make_ok v) : Result T E).is_ok = true ∧
    ((Result.ofOk (make_ok v) : Result T E).unwrap).1 = Outcome.ret v ∧
    (Result.ofErr (make_err e) : Result T E).is_err = true ∧
    ((Result.ofErr (make_err e) : Result T E).unwrap_err).1 = Outcome.ret e :=
  ⟨rfl, rfl, rfl, rfl⟩

/-- Claim C4: contract of the ownership-taking accessors.  Under its
precondition `is_ok`, `unwrap` returns the moved-out payload normally
(the assertion branch is unreachable); with the precondition violated it
aborts (fatal assertion), and symmetrically for `unwrap_err`.  No
operation of the type ever produces a catchable exception
(`Outcome.thrown`) on any path. -/
theorem unwrap_contract {T E U F : Type} [MoveSem T] [MoveSem E]
    (r : Result T E) (d : T) :
    (∀ v : T, r = Result.ofOk ⟨v⟩ →
      r.unwrap = (Outcome.ret v, Result.ofOk ⟨MoveSem.moved v⟩)) ∧
    (r.is_ok = false → (r.unwrap).1 = Outcome.abort) ∧
    (∀ e : E, r = Result.ofErr ⟨e⟩ →
      r.unwrap_err = (Outcome.ret e, Result.ofErr ⟨MoveSem.moved e⟩)) ∧
    (r.is_err = false → (r.unwrap_err).1 = Outcome.abort) ∧
    (r.unwrap).1 ≠ Outcome.thrown ∧
    (r.unwrap_err).1 ≠ Outcome.thrown ∧
    r.unwrap_or d ≠ Outcome.thrown ∧
    r.ref_ok ≠ Outcome.thrown ∧
    r.ref_err ≠ Outcome.thrown ∧
    (∀ f : T → U, Result.map f r ≠ Outcome.thrown) ∧
    (∀ g : E → F, Result.map_err g r ≠ Outcome.thrown) ∧
    (∀ k : T → Result U E, Result.and_then k r ≠ Outcome.thrown) := by
  refine ⟨fun v hv => by subst hv; rfl,
          fun h => ?_,
          fun e he => by subst he; rfl,
          fun h => ?_, ?_, ?_, ?_, ?_, ?_, fun f => ?_, fun g => ?_, fun k => ?_⟩ <;>
    rcases r with ⟨_ | o | e⟩ <;>
    simp_all [Result.is_ok, Result.is_err, Result.unwrap, Result.unwrap_err,
      Result.unwrap_or, Result.ref_ok, Result.ref_err, Result.map,
      Result.map_err, Result.and_then]

/-- Witness for C4 at concrete inputs. -/
theorem unwrap_contract_witness :
    (Result.ofOk (make_ok (1 : Int)) : Result Int Int).unwrap =
      (Outcome.ret 1, Result.ofOk ⟨1⟩) ∧
    ((Result.ofErr (make_err (2 : Int)) : Result Int Int).unwrap).1 = Outcome.abort ∧
    ((Result.ofOk (make_ok (1 : Int)) : Result Int Int).unwrap).1 ≠ Outcome.thrown :=
  ⟨(unwrap_contract (U := Int) (F := Int) (Result.ofOk (make_ok 1)) 0).1 1 rfl,
   (unwrap_contract (U := Int) (F := Int) (Result.ofErr (make_err 2)) 0).2.1 rfl,
   (unwrap_contract (U := Int) (F := Int) (Result.ofOk (make_ok 1)) 0).2.2.2.2.1⟩

/-- Claim C5: `unwrap_or` has no precondition.  On a success Result it
returns the success payload (never the default); on a failure Result it
returns exactly the caller-supplied default, discarding the failure
payload. -/
theorem unwrap_or_total {T E : Type} [MoveSem T] (v : T) (e : E) (d : T) :
    (Result.ofOk (make_ok v) : Result T E).unwrap_or d = Outcome.ret v ∧
    (Result.ofErr (make_err e) : Result T E).unwrap_or d = Outcome.ret d :=
  ⟨rfl, rfl⟩

/-- Claim C6: `inspect_ok` invokes its callback exactly once with the
success payload on the success branch and zero times on the failure
branch; `inspect_err` is the mirror.  Both leave the Result unchanged
and return the very same Result, so chained calls run their callbacks in
call order (`g` observes the state produced by `f`). -/
theorem inspect_contract {T E S : Type} (f g : T → S → S) (p q : E → S → S)
    (v : T) (e : E) (s : S) :
    Result.inspect_ok f (Result.ofOk (make_ok v) : Result T E) s =
      (Result.ofOk (make_ok v), f v s, 1) ∧
    Result.inspect_ok f (Result.ofErr (make_err e) : Result T E) s =
      (Result.ofErr (make_err e), s, 0) ∧
    Result.inspect_err p (Result.ofErr (make_err e) : Result T E) s =
      (Result.ofErr (make_err e), p e s, 1) ∧
    Result.inspect_err p (Result.ofOk (make_ok v) : Result T E) s =
      (Result.ofOk (make_ok v), s, 0) ∧
    (Result.inspect_ok g
        (Result.inspect_ok f (Result.ofOk (make_ok v) : Result T E) s).1
        (Result.inspect_ok f (Result.ofOk (make_ok v) : Result T E) s).2.1).2.1 =
      g v (f v s) ∧
    (Result.inspect_err q
        (Result.inspect_err p (Result.ofErr (make_err e) : Result T E) s).1
        (Result.inspect_err p (Result.ofErr (make_err e) : Result T E) s).2.1).2.1 =
      q e (p e s) :=
  ⟨rfl, rfl, rfl, rfl, rfl, rfl⟩

/-- Claim C7: state invariant.  Every Result constructed through the
public API (from an `Ok` or `Err` wrapper, hence by any of the
factories) satisfies that exactly one of `is_ok` and `is_err` is true:
never both, never neither. -/
theorem tag_invariant {T E : Type} (r : Result T E) (h : Constructed r) :
    (r.is_ok = true ∧ r.is_err = false) ∨ (r.is_ok = false ∧ r.is_err = true) := by
  cases h with
  | fromOk o => exact Or.inl ⟨rfl, rfl⟩
  | fromErr e => exact Or.inr ⟨rfl, rfl⟩

/-- Witness for C7 at a concrete constructed Result. -/
theorem tag_invariant_witness :
    ((Result.ofOk (make_ok (0 : Int)) : Result Int Int).is_ok = true ∧
      (Result.ofOk (make_ok (0 : Int)) : Result Int Int).is_err = false) ∨
    ((Result.ofOk (make_ok (0 : Int)) : Result Int Int).is_ok = false ∧
      (Result.ofOk (make_ok (0 : Int)) : Result Int Int).is_err = true) :=
  tag_invariant _ (Constructed.fromOk _)

/-- Claim C8: void-payload specialization.  `make_ok()` takes no
argument and the resulting `Result<void,E>` has `is_ok` true; `unwrap`
on it performs only the success assertion, returns nothing and does not
abort; the `map` callback takes no argument and its return value becomes
the new success payload, with failure short-circuiting unchanged; the
chaining contract of `and_then` is unchanged. -/
theorem void_specialization {E U : Type} [MoveSem E] (f : Unit → U) (e : E) :
    (Result.ofOk make_ok_void : Result Unit E).is_ok = true ∧
    (Result.ofOk make_ok_void : Result Unit E).unwrap_void = Outcome.ret () ∧
    Result.map_void f (Result.ofOk make_ok_void : Result Unit E) =
      Outcome.ret (Result.ofOk ⟨f ()⟩, 1) ∧
    Result.map_void f (Result.ofErr (make_err e) : Result Unit E) =
      Outcome.ret (Result.ofErr ⟨e⟩, 0) ∧
    (∀ g : Unit → Result U E,
      Result.and_then g (Result.ofOk make_ok_void : Result Unit E) =
        Outcome.ret ⟨g (), Result.ofOk ⟨()⟩, 1, 0⟩ ∧
      Result.and_then g (Result.ofErr (make_err e) : Result Unit E) =
        Outcome.ret ⟨Result.ofErr ⟨e⟩, Result.ofErr ⟨MoveSem.moved e⟩, 0, 1⟩) :=
  ⟨rfl, rfl, rfl, rfl, fun _ => ⟨rfl, rfl⟩⟩

/-- Counterexample to claim C9 as stated: the pass-through branch of
`map` copy-constructs the carried failure payload (`Err<E>` is built
from an lvalue), so with the move-only `NCObj` as failure payload,
mapping over a failure Result performs one copy, not zero. -/
theorem move_only_copy_counterexample :
    Result.map (fun x : Int => x)
        (Result.ofErr (make_err (NCObj.mk 7)) : Result Int NCObj) =
      Outcome.ret ⟨Result.ofErr ⟨⟨7⟩⟩, Result.ofErr ⟨⟨0⟩⟩, 0, 1⟩ ∧
    (1 : Nat) ≠ 0 :=
  ⟨rfl, by decide⟩

/-- Claim C9 (amended): move-only payloads work copy-free through
`unwrap`, `unwrap_or`, `ref_ok` and the transformed branches of `map`,
`map_err` and `and_then`; after `unwrap` the source payload is the
emptied sentinel (id 0), never a duplicate of the original.  However the
pass-through branches of `map`/`and_then` copy-construct the carried
failure payload and the pass-through branch of `map_err` copy-constructs
the carried success payload, so those combinators require the carried
payload type to be copyable. -/
theorem move_only_amended (v : NCObj) (h : v.id ≠ 0) (d : NCObj)
    (f : NCObj → Int) (g : NCObj → Result Int Int) :
    (Result.ofOk (make_ok_with v) : Result NCObj Int).unwrap =
      (Outcome.ret v, Result.ofOk ⟨⟨0⟩⟩) ∧
    (⟨0⟩ : NCObj) ≠ v ∧
    ((Result.ofOk (make_ok_with v) : Result NCObj Int).unwrap).2.ref_ok =
      Outcome.ret ⟨0⟩ ∧
    (Result.ofOk (make_ok_with v) : Result NCObj Int).unwrap_or d = Outcome.ret v ∧
    (Result.ofErr (make_err (5 : Int)) : Result NCObj Int).unwrap_or d =
      Outcome.ret d ∧
    Result.map f (Result.ofOk (make_ok_with v) : Result NCObj Int) =
      Outcome.ret ⟨Result.ofOk ⟨f v⟩, Result.ofOk ⟨⟨0⟩⟩, 1, 0⟩ ∧
    Result.and_then g (Result.ofOk (make_ok_with v) : Result NCObj Int) =
      Outcome.ret ⟨g v, Result.ofOk ⟨⟨0⟩⟩, 1, 0⟩ ∧
    Result.map_err f (Result.ofErr (make_err v) : Result Int NCObj) =
      Outcome.ret ⟨Result.ofErr ⟨f v⟩, Result.ofErr ⟨⟨0⟩⟩, 1, 0⟩ ∧
    Result.map (fun x : Int => x) (Result.ofErr (make_err v) : Result Int NCObj) =
      Outcome.ret ⟨Result.ofErr ⟨v⟩, Result.ofErr ⟨⟨0⟩⟩, 0, 1⟩ ∧
    Result.map_err (fun x : Int => x)
        (Result.ofOk (make_ok_with v) : Result NCObj Int) =
      Outcome.ret ⟨Result.ofOk ⟨v⟩, Result.ofOk ⟨⟨0⟩⟩, 0, 1⟩ :=
  ⟨rfl, fun heq => h (heq ▸ rfl), rfl, rfl, rfl, rfl, rfl, rfl, rfl, rfl⟩

/-- Witness for the amended C9 at a concrete move-only payload. -/
theorem move_only_amended_witness :
    (Result.ofOk (make_ok_with (NCObj.mk 42)) : Result NCObj Int).unwrap =
      (Outcome.ret ⟨42⟩, Result.ofOk ⟨⟨0⟩⟩) ∧
    (⟨0⟩ : NCObj) ≠ NCObj.mk 42 :=
  ⟨(move_only_amended ⟨42⟩ (by decide) ⟨9⟩ (fun o => Int.ofNat o.id)
      (fun o => Result.ofOk ⟨Int.ofNat o.id⟩)).1,
   (move_only_amended ⟨42⟩ (by decide) ⟨9⟩ (fun o => Int.ofNat o.id)
      (fun o => Result.ofOk ⟨Int.ofNat o.id⟩)).2.1⟩

/-- Claim C10: after a consuming combinator (`map`, `map_err`,
`and_then`) returns, the source Result keeps its discriminant: the
monostate alternative is never inhabited, and `is_ok`/`is_err` on the
consumed source return the same tags as before the call (only the
payload is moved-from). -/
theorem consumed_source_tag {T E U F : Type} [MoveSem T] [MoveSem E]
    (f : T → U) (g : E → F) (k : T → Result U E) (r : Result T E)
    (hr : r.m_value ≠ Variant.monostate) :
    (∃ o, Result.map f r = Outcome.ret o ∧
      o.source.is_ok = r.is_ok ∧ o.source.is_err = r.is_err ∧
      o.source.m_value ≠ Variant.monostate) ∧
    (∃ o, Result.map_err g r = Outcome.ret o ∧
      o.source.is_ok = r.is_ok ∧ o.source.is_err = r.is_err ∧
      o.source.m_value ≠ Variant.monostate) ∧
    (∃ o, Result.and_then k r = Outcome.ret o ∧
      o.source.is_ok = r.is_ok ∧ o.source.is_err = r.is_err ∧
      o.source.m_value ≠ Variant.monostate) := by
  rcases r with ⟨_ | o | e⟩
  · exact absurd rfl hr
  · exact ⟨⟨_, rfl, rfl, rfl, fun hc => nomatch hc⟩,
     ⟨_, rfl, rfl, rfl, fun hc => nomatch hc⟩,
     ⟨_, rfl, rfl, rfl, fun hc => nomatch hc⟩⟩
  · exact ⟨⟨_, rfl, rfl, rfl, fun hc => nomatch hc⟩,
     ⟨_, rfl, rfl, rfl, fun hc => nomatch hc⟩,
     ⟨_, rfl, rfl, rfl, fun hc => nomatch hc⟩⟩

/-- Witness for C10 at a concrete success Result. -/
theorem consumed_source_tag_witness :
    ∃ o, Result.map (fun x : Int => x + 1)
        (Result.ofOk (make_ok (1 : Int)) : Result Int Int) = Outcome.ret o ∧
      o.source.is_ok = (Result.ofOk (make_ok (1 : Int)) : Result Int Int).is_ok ∧
      o.source.is_err = (Result.ofOk (make_ok (1 : Int)) : Result Int Int).is_err ∧
      o.source.m_value ≠ Variant.monostate :=
  (consumed_source_tag (fun x : Int => x + 1) (fun x : Int => x)
    (fun x : Int => Result.ofOk ⟨x⟩) (Result.ofOk (make_ok 1))
    (fun hc => nomatch hc)).1

end T9Result
